import Mathlib

/- Shallow embedding of the FBR e-invoicing core of this repository
(src/fbr_core/fbr_service.py together with the column model from
src/fbr_core/models.py): the payload builder, the validator, the submission
service and the submission queue manager, with theorems about the spec's
claims over those definitions.

Modelling conventions:
* Python float columns are modelled as `Rat`; nullable numeric columns whose
  nullability the code observes (`tax_rate`, `tax_amount`) are `Option Rat`.
* Nullable string columns are modelled as `String` with `""` playing the role
  of both NULL and the empty string: the code only ever observes them through
  Python truthiness (`or` / `if not x`), which identifies the two.
* Wall-clock instants (`datetime.utcnow()`) are abstract ticks (`Nat`) passed
  in explicitly; calendar day numbers are `Int` (the validator only takes day
  differences, the builder only formats the date).
* `requests` I/O is abstracted by an explicit `HttpOutcome` oracle argument;
  `datetime.fromisoformat` / `datetime.strptime` are abstracted by explicit
  parser arguments `String → Option Nat`.
* `json.dumps(..., indent=2)` is abstracted by a canonical rendering of the
  fields the program consumes. -/

namespace FBR

/-- Python exception values raised by the embedded code, tagged with the
Python exception class that is raised. `nameError missing` models the
`NameError` CPython raises when the global name `missing` does not resolve. -/
inductive PyExc where
  | nameError (missing : String)
  | typeError (msg : String)
  | valueError (msg : String)
  | exception (msg : String)
deriving DecidableEq, Repr

/-- Python class name of the exception, as `type(e).__name__` would report. -/
def PyExc.typeName : PyExc → String
  | .nameError _ => "NameError"
  | .typeError _ => "TypeError"
  | .valueError _ => "ValueError"
  | .exception _ => "Exception"

/-- Message of the exception, as `str(e)` would render it. -/
def PyExc.message : PyExc → String
  | .nameError n => "name \u0027" ++ n ++ "\u0027 is not defined"
  | .typeError m => m
  | .valueError m => m
  | .exception m => m

/-- Python `a or b` on strings: `""` (and NULL) are falsy. -/
def pyOrS (a b : String) : String := if a = "" then b else a

/-- Row of the `companies` table, restricted to the columns the core reads. -/
structure Company where
  ntn_cnic : String
  name : String
  address : String
  province : String
deriving DecidableEq, Repr

/-- Row of the `sales_invoices` table, restricted to the columns the core
reads and writes. `posting_date` is an abstract day number. -/
structure Invoice where
  id : Nat
  company_id : String
  invoice_type : String
  posting_date : Int
  buyer_ntn_cnic : String
  buyer_name : String
  buyer_address : String
  buyer_province : String
  buyer_type : String
  sale_origination_province : String
  fbr_invoice_number : String
  fbr_status : String
  fbr_response : String
  fbr_datetime : Option Nat
  status : String
  updated_at : Nat
deriving DecidableEq, Repr

/-- Row of the `sales_invoice_items` table. `tax_rate` and `tax_amount` keep
their nullability because the code observes it (`item.tax_rate is None`;
`total_value - tax_amount` raises `TypeError` on NULL). -/
structure SalesInvoiceItem where
  item_name : String
  item_description : String
  hs_code : String
  uom : String
  quantity : Rat
  unit_price : Rat
  total_value : Rat
  tax_rate : Option Rat
  tax_amount : Option Rat
  extra_tax : Rat
  further_tax : Rat
  sales_tax_withheld_at_source : Rat
  fixed_notified_value : Rat
  sro_schedule_no : String
  fed_payable : Rat
  discount : Rat
  sale_type : String
  sro_item_serial_no : String
deriving DecidableEq, Repr

/-- Row of the `fbr_settings` table, restricted to the columns the core
reads. -/
structure FBRSettings where
  company_id : String
  api_endpoint : String
  validation_endpoint : String
  pral_authorization_token : String
  timeout_seconds : Option Nat
  sandbox_scenario_id : String
deriving DecidableEq, Repr

/-- Python `f"{x}%"` applied to a nullable float column (numeric formatting
abstracted; `None` renders as "None" exactly as the f-string does). -/
def ratePercentStr : Option Rat → String
  | none => "None%"
  | some q => toString q ++ "%"

/-- Python `posting_date.strftime("%Y-%m-%d")`, with the calendar rendering
of the abstract day number abstracted. -/
def pyDateStr (d : Int) : String := toString d

/-- One entry of the `items` array of the FBR wire payload, with exactly
the keys `build_sales_invoice_payload` emits. -/
structure ItemEntry where
  hsCode : String
  productDescription : String
  rate : String
  uoM : String
  quantity : Rat
  totalValues : Rat
  valueSalesExcludingST : Rat
  fixedNotifiedValueOrRetailPrice : Rat
  salesTaxApplicable : Rat
  salesTaxWithheldAtSource : Rat
  extraTax : Rat
  furtherTax : Rat
  sroScheduleNo : String
  fedPayable : Rat
  discount : Rat
  saleType : String
  sroItemSerialNo : String
deriving DecidableEq, Repr

/-- The FBR wire payload built by `build_sales_invoice_payload`. -/
structure Payload where
  invoiceType : String
  invoiceDate : String
  sellerNTNCNIC : String
  sellerBusinessName : String
  sellerProvince : String
  sellerAddress : String
  buyerNTNCNIC : String
  buyerBusinessName : String
  buyerProvince : String
  buyerAddress : String
  buyerRegistrationType : String
  invoiceRefNo : String
  scenarioId : Option String
  items : List ItemEntry
deriving DecidableEq, Repr

/-- Message of the `TypeError` raised by `item.total_value - item.tax_amount`
when `tax_amount` is NULL. -/
def subNoneTypeErrorMsg : String :=
  "unsupported operand type(s) for -: \u0027float\u0027 and \u0027NoneType\u0027"

/-- Body of the per-item loop of
`CompanySpecificFBRPayloadBuilder.build_sales_invoice_payload` (fbr_service.py
lines 74-97): computes `value_excl_st = total_value - tax_amount` and copies
every stored column into the wire entry verbatim. -/
def buildItemEntry (item : SalesInvoiceItem) : Except PyExc ItemEntry :=
  match item.tax_amount with
  | none => .error (.typeError subNoneTypeErrorMsg)
  | some ta =>
    .ok { hsCode := item.hs_code
          productDescription := pyOrS item.item_description item.item_name
          rate := ratePercentStr item.tax_rate
          uoM := item.uom
          quantity := item.quantity
          totalValues := item.total_value
          valueSalesExcludingST := item.total_value - ta
          fixedNotifiedValueOrRetailPrice := item.fixed_notified_value
          salesTaxApplicable := ta
          salesTaxWithheldAtSource := item.sales_tax_withheld_at_source
          extraTax := item.extra_tax
          furtherTax := item.further_tax
          sroScheduleNo := pyOrS item.sro_schedule_no ""
          fedPayable := item.fed_payable
          discount := item.discount
          saleType := item.sale_type
          sroItemSerialNo := pyOrS item.sro_item_serial_no "" }

/-- The `for item in invoice_items` loop of `build_sales_invoice_payload`:
entries are built in order and the first exception aborts the loop. -/
def buildItems : List SalesInvoiceItem → Except PyExc (List ItemEntry)
  | [] => .ok []
  | item :: rest => do
    let entry ← buildItemEntry item
    let entries ← buildItems rest
    .ok (entry :: entries)

/-- `CompanySpecificFBRPayloadBuilder.build_sales_invoice_payload`
(fbr_service.py lines 21-102). The database fetches of the invoice and
company rows are the `Option` arguments; `items` are the invoice's line
items. Every exception escaping the body is re-raised as
`Exception("Error building payload: " + str(e))`. -/
def build_sales_invoice_payload (invoice_id : Nat) (company_id : String)
    (invoiceRow : Option Invoice) (companyRow : Option Company)
    (settingsRow : Option FBRSettings) (items : List SalesInvoiceItem)
    (mode : String) : Except PyExc Payload :=
  let body : Except PyExc Payload :=
    match invoiceRow with
    | none => .error (.valueError
        ("Invoice " ++ toString invoice_id ++ " not found for company " ++ company_id))
    | some invoice =>
      match companyRow with
      | none => .error (.valueError ("Company " ++ company_id ++ " not found"))
      | some company =>
        match buildItems items with
        | .error e => .error e
        | .ok entries =>
          .ok { invoiceType := pyOrS invoice.invoice_type "Sale Invoice"
                invoiceDate := pyDateStr invoice.posting_date
                sellerNTNCNIC := company.ntn_cnic
                sellerBusinessName := company.name
                sellerProvince := pyOrS invoice.sale_origination_province
                                    (pyOrS company.province "Sindh")
                sellerAddress := pyOrS company.address ""
                buyerNTNCNIC := pyOrS invoice.buyer_ntn_cnic ""
                buyerBusinessName := pyOrS invoice.buyer_name ""
                buyerProvince := pyOrS invoice.buyer_province "Sindh"
                buyerAddress := pyOrS invoice.buyer_address ""
                buyerRegistrationType := pyOrS invoice.buyer_type "Unregistered"
                invoiceRefNo := ""
                scenarioId :=
                  if mode.toLower = "sandbox" then
                    some (match settingsRow with
                          | some settings => settings.sandbox_scenario_id
                          | none => "SN001")
                  else none
                items := entries }
  match body with
  | .ok payload => .ok payload
  | .error e => .error (.exception ("Error building payload: " ++ e.message))

/-- Result dictionary of `CompanySpecificFBRValidator.validate_invoice`. -/
structure ValidationResult where
  valid : Bool
  errors : List String
  warnings : List String
deriving DecidableEq, Repr

/-- The per-item loop of `CompanySpecificFBRValidator._validate_invoice_items`
(fbr_service.py lines 189-203), indexed from 1. The `tax_rate is None` branch
executes `warnings.append(...)` although no local `warnings` exists in that
method, so it raises `NameError` and the errors accumulated so far are lost
with the propagating exception. -/
def validateItemsLoop : Nat → List SalesInvoiceItem → Except PyExc (List String)
  | _, [] => .ok []
  | idx, item :: rest =>
    let tag := "Item " ++ toString idx ++ " (" ++ item.item_name ++ "): "
    let itemErrors :=
      (if item.hs_code = "" then [tag ++ "HS Code is required"] else []) ++
      (if item.uom = "" then [tag ++ "UoM is required"] else []) ++
      (if item.quantity ≤ 0 then [tag ++ "Quantity must be greater than 0"] else []) ++
      (if item.total_value ≤ 0 then [tag ++ "Total value must be greater than 0"] else [])
    match item.tax_rate with
    | none => .error (.nameError "warnings")
    | some _ =>
      match validateItemsLoop (idx + 1) rest with
      | .error e => .error e
      | .ok tailErrors => .ok (itemErrors ++ tailErrors)

/-- `CompanySpecificFBRValidator._validate_invoice_items` (fbr_service.py
lines 175-205). -/
def validate_invoice_items (items : List SalesInvoiceItem) :
    Except PyExc (List String) :=
  if items.isEmpty then .ok ["At least one item is required for FBR submission"]
  else validateItemsLoop 1 items

/-- `CompanySpecificFBRValidator.validate_invoice` (fbr_service.py lines
113-173). `today` is `datetime.now().date()` as a day number. The outer
`except` turns any exception from the body into one more error string, keeping
the errors and warnings already accumulated. -/
def validate_invoice (invoice_id : Nat) (invoiceRow : Option Invoice)
    (companyRow : Option Company) (items : List SalesInvoiceItem)
    (today : Int) : ValidationResult :=
  match invoiceRow with
  | none =>
    { valid := false
      errors := ["Invoice " ++ toString invoice_id ++ " not found"]
      warnings := [] }
  | some invoice =>
    let headerErrors :=
      (if invoice.buyer_province = "" then
        ["Buyer Province is required for FBR submission"] else []) ++
      (if invoice.sale_origination_province = "" then
        ["Sale Origination Province is required for FBR submission"] else []) ++
      (match companyRow with
       | none => ["Company information not found"]
       | some company =>
         (if company.ntn_cnic = "" then
           ["Company NTN/CNIC is required for FBR submission"] else []) ++
         (if company.name = "" then
           ["Company name is required for FBR submission"] else []))
    let dateWarnings :=
      if (invoice.posting_date - today).natAbs > 3 then
        ["Invoice date (" ++ toString invoice.posting_date ++
         ") should be close to current date (" ++ toString today ++ ")"]
      else []
    let buyerWarnings :=
      if invoice.buyer_ntn_cnic = "" ∧ invoice.buyer_type = "Registered" then
        ["Buyer NTN/CNIC missing for registered buyer"]
      else []
    let errorsBeforeItems :=
      headerErrors ++
      (if invoice.buyer_name = "" then
        ["Buyer name is required for FBR submission"] else [])
    let warnings := dateWarnings ++ buyerWarnings
    match validate_invoice_items items with
    | .ok itemErrors =>
      let errors := errorsBeforeItems ++ itemErrors
      { valid := errors.isEmpty, errors := errors, warnings := warnings }
    | .error e =>
      let errors := errorsBeforeItems ++ ["Validation error: " ++ e.message]
      { valid := errors.isEmpty, errors := errors, warnings := warnings }

/-- The `validationResponse` object of an FBR gateway response, restricted to
the keys the program reads. Absent keys are `none`. -/
structure GatewayValidationResponse where
  statusCode : Option String
  status : Option String
  error : Option String
deriving DecidableEq, Repr

/-- A parsed FBR gateway response (`response.json()`), restricted to the keys
the program reads. Absent keys are `none`. -/
structure Response where
  invoiceNumber : Option String
  dated : Option String
  validationResponse : Option GatewayValidationResponse
deriving DecidableEq, Repr

/-- Python truthiness of the parsed response dictionary, approximated by the
keys the program consumes: `{}` is falsy. -/
def Response.truthy (r : Response) : Bool :=
  r.invoiceNumber.isSome || r.dated.isSome || r.validationResponse.isSome

/-- Outcome of the `requests.post` + `raise_for_status` + `json()` sequence,
as seen at the `except requests.exceptions.RequestException` boundary of
`_submit_to_fbr_api`. All four failure constructors are
`RequestException` subclasses (`Timeout`, `HTTPError`, `ConnectionError`,
`JSONDecodeError`); `msg` is `str(e)`. -/
inductive HttpOutcome where
  | ok (response : Response)
  | timeout (msg : String)
  | httpError (statusCode : Nat) (msg : String)
  | networkError (msg : String)
  | decodeError (msg : String)
deriving DecidableEq, Repr

/-- The `str(e)` of a failed request, `none` on the success outcome. -/
def HttpOutcome.failureMsg : HttpOutcome → Option String
  | .ok _ => none
  | .timeout m => some m
  | .httpError _ m => some m
  | .networkError m => some m
  | .decodeError m => some m

/-- `FBRSubmissionService._submit_to_fbr_api` (fbr_service.py lines 323-365):
posts the payload and returns the parsed JSON; every
`requests.exceptions.RequestException` is re-raised as the single generic
`Exception("FBR API request failed: " + str(e))`. The settings row is read
for the endpoint, token and timeout, all absorbed by the outcome oracle. -/
def submit_to_fbr_api (settings : FBRSettings) (outcome : HttpOutcome) :
    Except PyExc Response :=
  match outcome with
  | .ok r => .ok r
  | .timeout m => .error (.exception ("FBR API request failed: " ++ m))
  | .httpError _ m => .error (.exception ("FBR API request failed: " ++ m))
  | .networkError m => .error (.exception ("FBR API request failed: " ++ m))
  | .decodeError m => .error (.exception ("FBR API request failed: " ++ m))

/-- Rendering of `json.dumps(response, indent=2)` over the consumed keys
(pretty-printing abstracted to a canonical rendering). -/
def dumpResponse (r : Response) : String :=
  let q := fun (s : Option String) => match s with
    | none => "null"
    | some v => "\"" ++ v ++ "\""
  "invoiceNumber: " ++ q r.invoiceNumber ++ ", dated: " ++ q r.dated ++
  ", validationResponse: " ++
  (match r.validationResponse with
   | none => "absent"
   | some v =>
     "statusCode: " ++ q v.statusCode ++ ", status: " ++ q v.status ++
     ", error: " ++ q v.error)

/-- The `dated`-parsing block of `_update_invoice_with_response`
(fbr_service.py lines 381-392): an ISO parse when the string contains "T"
(after replacing "Z" by "+00:00"), a `strptime` parse otherwise, and
`datetime.utcnow()` when the string is empty or the parse raises.
`parseIso` and `parseStrp` stand for `datetime.fromisoformat` and
`datetime.strptime(_, "%Y-%m-%d %H:%M:%S")`. -/
def parseFbrDated (parseIso parseStrp : String → Option Nat) (now : Nat)
    (dated : Option String) : Nat :=
  let datedStr := dated.getD ""
  if datedStr = "" then now
  else if datedStr.toList.contains 'T' then
    (parseIso (datedStr.replace "Z" "+00:00")).getD now
  else (parseStrp datedStr).getD now

/-- `FBRSubmissionService._update_invoice_with_response` (fbr_service.py
lines 367-410): writes the FBR response fields onto the invoice row and
advances its status. Returns the stored row (unchanged when the invoice was
not found). -/
def update_invoice_with_response (parseIso parseStrp : String → Option Nat)
    (now : Nat) (invoiceRow : Option Invoice) (response : Response) :
    Option Invoice :=
  match invoiceRow with
  | none => none
  | some invoice =>
    let fbrStatus :=
      match response.validationResponse with
      | none => "Unknown"
      | some v => v.status.getD "Unknown"
    some { invoice with
      fbr_invoice_number := response.invoiceNumber.getD ""
      fbr_datetime := some (parseFbrDated parseIso parseStrp now response.dated)
      fbr_status := fbrStatus
      fbr_response := dumpResponse response
      status := if fbrStatus = "Valid" then "Submitted" else "Failed"
      updated_at := now }

/-- The `response` argument of `_log_submission`: either the parsed gateway
response or the literal `{"error": msg}` dictionary built on the exception
path of `submit_invoice`. -/
inductive LogResponse where
  | parsed (r : Response)
  | errDict (msg : String)
deriving DecidableEq, Repr

/-- Row of the `fbr_logs` table as `_log_submission` fills it, restricted to
the columns it sets from its arguments. `request_payload` is `none` when the
payload dictionary was empty/unbound (Python falsy). -/
structure FBRLogRow where
  company_id : String
  document_type : String
  document_id : Nat
  fbr_invoice_number : String
  status : String
  processing_time : Nat
  api_endpoint : String
  request_payload : Option Payload
  response_data : LogResponse
  response_status_code : String
  validation_errors : String
  mode : String
  api_version : String
deriving DecidableEq, Repr

/-- `FBRSubmissionService._log_submission` (fbr_service.py lines 412-454):
resolves the log status from the response shape and builds the appended
`FBRLogs` row. -/
def log_submission (company_id document_type : String) (document_id : Nat)
    (payload : Option Payload) (response : LogResponse)
    (processing_time : Nat) (mode api_endpoint : String)
    (status_override : Option String) : FBRLogRow :=
  let statusAndError : String × String :=
    match status_override with
    | some s => (s, "")
    | none =>
      match response with
      | .parsed r =>
        match r.validationResponse with
        | some v => (v.status.getD "Unknown", v.error.getD "")
        | none => (if r.truthy then "Success" else "Error", "")
      | .errDict msg => ("Error", msg)
  let actualStatus := statusAndError.1
  { company_id := company_id
    document_type := document_type
    document_id := document_id
    fbr_invoice_number :=
      match response with
      | .parsed r => r.invoiceNumber.getD ""
      | .errDict _ => ""
    status := actualStatus
    processing_time := processing_time
    api_endpoint := api_endpoint
    request_payload := payload
    response_data := response
    response_status_code :=
      if actualStatus = "Valid" ∨ actualStatus = "Success" then "200" else "400"
    validation_errors := statusAndError.2
    mode := mode
    api_version := "v1" }

/-- Result dictionary of `FBRSubmissionService.submit_invoice`; keys absent
from a given return path are `none`/`[]`. -/
structure SubmitResult where
  success : Bool
  error : Option String
  errors : List String
  warnings : List String
  response : Option Response
deriving DecidableEq, Repr

/-- Observable outcome of one `submit_invoice` call: the returned dictionary,
the invoice row as stored afterwards, and the `FBRLogs` rows appended by the
call in order. -/
structure SubmitOutcome where
  result : SubmitResult
  invoice : Option Invoice
  logs : List FBRLogRow
deriving DecidableEq, Repr

/-- `FBRSubmissionService.submit_invoice` (fbr_service.py lines 218-276).
The elapsed wall-clock (`processing_time`) is not modelled and is recorded
as 0. The validation-failure and missing-settings paths return before any
logging; the success path updates the invoice and appends one log row; any
exception raised after validation is caught and logged with the
`{"error": msg}` dictionary, with the payload and endpoint only when those
locals were already bound. `_create_audit_log` raises `NameError` on the
unimported `AuditLog` but swallows it internally, leaving no trace here. -/
def submit_invoice (invoice_id : Nat) (company_id : String)
    (invoiceRow : Option Invoice) (companyRow : Option Company)
    (items : List SalesInvoiceItem) (settingsRow : Option FBRSettings)
    (httpOutcome : HttpOutcome) (parseIso parseStrp : String → Option Nat)
    (today : Int) (now : Nat) (mode : String) : SubmitOutcome :=
  let validation := validate_invoice invoice_id invoiceRow companyRow items today
  if !validation.valid then
    { result := { success := false, error := some "Validation failed"
                  errors := validation.errors, warnings := validation.warnings
                  response := none }
      invoice := invoiceRow, logs := [] }
  else
    match build_sales_invoice_payload invoice_id company_id invoiceRow
        companyRow settingsRow items mode with
    | .error e =>
      let row := log_submission company_id "Sales Invoice" invoice_id none
        (.errDict e.message) 0 mode "" none
      { result := { success := false, error := some e.message, errors := []
                    warnings := [], response := none }
        invoice := invoiceRow, logs := [row] }
    | .ok payload =>
      let configError : SubmitOutcome :=
        { result := { success := false
                      error := some "FBR API settings not configured for this company"
                      errors := [], warnings := [], response := none }
          invoice := invoiceRow, logs := [] }
      match settingsRow with
      | none => configError
      | some settings =>
        if settings.api_endpoint = "" then configError
        else
          match submit_to_fbr_api settings httpOutcome with
          | .error e =>
            let row := log_submission company_id "Sales Invoice" invoice_id
              (some payload) (.errDict e.message) 0 mode settings.api_endpoint none
            { result := { success := false, error := some e.message, errors := []
                          warnings := [], response := none }
              invoice := invoiceRow, logs := [row] }
          | .ok response =>
            let invoiceAfter := update_invoice_with_response parseIso parseStrp
              now invoiceRow response
            let row := log_submission company_id "Sales Invoice" invoice_id
              (some payload) (.parsed response) 0 mode settings.api_endpoint none
            { result := { success := true, error := none, errors := []
                          warnings := [], response := some response }
              invoice := invoiceAfter, logs := [row] }

/-- Queue item status column of the `fbr_queue` table. -/
inductive QStatus where
  | pending
  | processing
  | completed
  | failed
deriving DecidableEq, Repr

/-- Row of the `fbr_queue` table, restricted to the columns the queue manager
touches. Column defaults from models.py: `retry_count = 0`, `max_retries = 5`,
`priority = 5`, `status = "Pending"`. -/
structure QueueRow where
  id : Nat
  company_id : String
  document_type : String
  document_id : Nat
  status : QStatus
  priority : Nat
  retry_count : Nat
  max_retries : Nat
  error_message : Option String
  created_at : Nat
  last_retry_at : Option Nat
  completed_at : Option Nat
  next_retry_at : Option Nat
deriving DecidableEq, Repr

/-- The `fbr_queue` table contents plus the primary-key counter. -/
structure QueueState where
  rows : List QueueRow
  nextId : Nat
deriving DecidableEq, Repr

/-- The empty `fbr_queue` table. -/
def emptyQueue : QueueState := { rows := [], nextId := 1 }

/-- The `(company_id, document_type, document_id)` key columns of a row match
the given key. -/
def queueKeyMatch (company_id document_type : String) (document_id : Nat)
    (r : QueueRow) : Bool :=
  decide (r.company_id = company_id) && decide (r.document_type = document_type)
    && decide (r.document_id = document_id)

/-- The duplicate-enqueue filter of `add_to_queue` (fbr_service.py lines
489-498): same key and status `"Pending"`. -/
def pendingMatch (company_id document_type : String) (document_id : Nat)
    (r : QueueRow) : Bool :=
  queueKeyMatch company_id document_type document_id r
    && decide (r.status = QStatus.pending)

/-- Replaces the first element satisfying `p` by its image under `f`,
modelling a mutation of the row returned by `.filter_by(...).first()`. -/
def updateFirst (p : α → Bool) (f : α → α) : List α → List α
  | [] => []
  | x :: xs => if p x then f x :: xs else x :: updateFirst p f xs

/-- The duplicate-enqueue mutation of `add_to_queue` (fbr_service.py lines
500-503): increment `retry_count`, set `last_retry_at`, and keep the better
(smaller) priority. -/
def bumpQueueRow (priority now : Nat) (r : QueueRow) : QueueRow :=
  { r with
    retry_count := r.retry_count + 1
    last_retry_at := some now
    priority := min r.priority priority }

/-- The fresh row inserted by `add_to_queue` (fbr_service.py lines 505-513),
with the column defaults of models.py (`retry_count = 0`, `max_retries = 5`). -/
def newQueueRow (company_id document_type : String)
    (document_id priority now rowId : Nat) : QueueRow :=
  { id := rowId
    company_id := company_id
    document_type := document_type
    document_id := document_id
    status := QStatus.pending
    priority := priority
    retry_count := 0
    max_retries := 5
    error_message := none
    created_at := now
    last_retry_at := none
    completed_at := none
    next_retry_at := none }

/-- `FBRQueueManager.add_to_queue` (fbr_service.py lines 484-520): when a
`Pending` row with the same key exists, bump it in place; otherwise insert a
fresh `Pending` row. -/
def add_to_queue (company_id document_type : String) (document_id : Nat)
    (priority : Nat) (now : Nat) (s : QueueState) : QueueState :=
  if s.rows.any (pendingMatch company_id document_type document_id) then
    let bumped := updateFirst (pendingMatch company_id document_type document_id)
      (bumpQueueRow priority now) s.rows
    { s with rows := bumped }
  else
    { rows := s.rows ++
        [newQueueRow company_id document_type document_id priority now s.nextId]
      nextId := s.nextId + 1 }

/-- The exponential backoff of `process_queue` (fbr_service.py line 566):
`min(300, 30 * 2 ** retry_count)` seconds, applied to the already
incremented retry count. -/
def retryDelay (retry_count : Nat) : Nat := min 300 (30 * 2 ^ retry_count)

/-- The retry error message of `process_queue` (fbr_service.py lines
569-571): the result's `error` (default "Unknown error"), with the
validation sub-errors appended when present. -/
def queueErrorMessage (result : SubmitResult) : String :=
  let base := result.error.getD "Unknown error"
  if result.errors.isEmpty then base
  else base ++ " | Errors: " ++ String.intercalate "; " result.errors

/-- The per-item body of the `process_queue` loop (fbr_service.py lines
542-573): mark `Processing` with `last_retry_at = now`, submit, then either
complete the item or increment `retry_count` and reschedule or fail it.
`submit` is the oracle for `submission_service.submit_invoice` on the item's
`document_id`. The transient `Processing` mark is overwritten before the
loop iteration ends. -/
def processItem (submit : Nat → SubmitResult) (now : Nat) (r : QueueRow) :
    QueueRow :=
  let marked := { r with status := QStatus.processing, last_retry_at := some now }
  let result := submit r.document_id
  if result.success then
    { marked with status := QStatus.completed, completed_at := some now }
  else
    let rc := marked.retry_count + 1
    let rescheduled :=
      if rc ≥ marked.max_retries then
        { marked with status := QStatus.failed, retry_count := rc }
      else
        { marked with status := QStatus.pending, retry_count := rc
                      next_retry_at := some (now + retryDelay rc) }
    { rescheduled with error_message := some (queueErrorMessage result) }

/-- The candidate filter of `process_queue` (fbr_service.py lines 526-536):
this company, status `Pending`, `retry_count < max_retries`. -/
def processCandidate (company_id : String) (r : QueueRow) : Bool :=
  decide (r.company_id = company_id) && decide (r.status = QStatus.pending)
    && decide (r.retry_count < r.max_retries)

/-- The `ORDER BY priority DESC, created_at ASC` comparator of
`process_queue`. -/
def queueOrder (a b : QueueRow) : Bool :=
  b.priority < a.priority
    || (decide (a.priority = b.priority) && decide (a.created_at ≤ b.created_at))

/-- Insertion into a list sorted by `le`. -/
def insertSorted (le : α → α → Bool) (x : α) : List α → List α
  | [] => [x]
  | y :: ys => if le x y then x :: y :: ys else y :: insertSorted le x ys

/-- Insertion sort by `le`, modelling the query's ORDER BY. -/
def sortByOrder (le : α → α → Bool) : List α → List α
  | [] => []
  | x :: xs => insertSorted le x (sortByOrder le xs)

/-- The candidate query of `process_queue`: filter, order, limit. -/
def selectPending (company_id : String) (limit : Nat) (s : QueueState) :
    List QueueRow :=
  (sortByOrder queueOrder (s.rows.filter (processCandidate company_id))).take limit

/-- Summary dictionary returned by `process_queue`. -/
structure ProcessSummary where
  processed_count : Nat
  failed_count : Nat
deriving DecidableEq, Repr

/-- `FBRQueueManager.process_queue` (fbr_service.py lines 522-594): drains up
to `limit` selected rows through `processItem`. Each selected row is mutated
independently of the others (the loop only ever touches the current ORM
object), so the end-of-call table maps each selected row through
`processItem` and leaves the rest untouched. -/
def process_queue (company_id : String) (submit : Nat → SubmitResult)
    (limit : Nat) (now : Nat) (s : QueueState) : QueueState × ProcessSummary :=
  let selected := selectPending company_id limit s
  let rows := s.rows.map (fun r =>
    if r ∈ selected then processItem submit now r else r)
  ({ s with rows := rows }
   , { processed_count := selected.countP (fun r => (submit r.document_id).success)
       failed_count := selected.countP (fun r =>
         !(submit r.document_id).success
           && decide (r.retry_count + 1 ≥ r.max_retries)) })

/-- One queue-manager call in a sequential history: an `add_to_queue` call or
a `process_queue` call (its submission outcomes supplied by the oracle). -/
inductive QueueOp where
  | add (company_id document_type : String) (document_id : Nat)
      (priority : Nat) (now : Nat)
  | process (company_id : String) (submit : Nat → SubmitResult)
      (limit : Nat) (now : Nat)

/-- Applies one queue-manager call to the table. -/
def applyQueueOp (op : QueueOp) (s : QueueState) : QueueState :=
  match op with
  | .add cid dt did prio now => add_to_queue cid dt did prio now s
  | .process cid submit limit now => (process_queue cid submit limit now s).1

/-- Runs a sequential history of queue-manager calls from the empty table. -/
def runQueueOps (ops : List QueueOp) : QueueState :=
  ops.foldl (fun s op => applyQueueOp op s) emptyQueue

/-- A row is active when its status is `Pending` or `Processing`. -/
def isActive (r : QueueRow) : Bool :=
  decide (r.status = QStatus.pending) || decide (r.status = QStatus.processing)

/-- Number of active rows for one `(company_id, document_type, document_id)`
key. -/
def activeCount (s : QueueState) (company_id document_type : String)
    (document_id : Nat) : Nat :=
  s.rows.countP (fun r =>
    queueKeyMatch company_id document_type document_id r && isActive r)

/-- Invariant maintained between queue-manager calls: at most one active row
per key, and no row is left in `Processing`. -/
def QueueInv (s : QueueState) : Prop :=
  (∀ cid dt did, activeCount s cid dt did ≤ 1) ∧
  (∀ r ∈ s.rows, r.status ≠ QStatus.processing)

/-- Global names defined in module `fbr_core.fbr_service` when its class
bodies execute: the imports of lines 2-10 and the module-level classes and
functions. `CompanySpecificFBRSubmissionService`, referenced by
`FBRQueueManager.__init__` on line 482, is not among them — the submission
service class defined in the module (line 208) is named
`FBRSubmissionService`, and no import supplies the longer name. -/
def fbrServiceModuleNames : List String :=
  ["json", "requests", "datetime", "timedelta", "Dict", "List", "Optional",
   "and_", "DatabaseManager", "Invoices", "SalesInvoiceItem", "FBRQueue",
   "FBRLogs", "FBRSettings", "Company", "Buyer", "Item",
   "CompanySpecificFBRPayloadBuilder", "CompanySpecificFBRValidator",
   "FBRSubmissionService", "FBRQueueManager",
   "get_company_fbr_service", "get_company_fbr_queue_manager",
   "process_company_queue", "submit_company_invoice",
   "validate_company_invoice"]

/-- Attributes an `FBRQueueManager` instance would carry after a successful
`__init__`. -/
structure FBRQueueManagerObj where
  db_manager : String
  company_id : String
deriving DecidableEq, Repr

/-- `FBRQueueManager.__init__` (fbr_service.py lines 478-482): assigns
`db_manager`, `company_id` and `session`, then evaluates
`CompanySpecificFBRSubmissionService(db_manager, company_id)`; constructing
the instance succeeds only if that global name resolves in the module
namespace (it is no Python builtin). -/
def FBRQueueManagerInit (db_manager company_id : String) :
    Except PyExc FBRQueueManagerObj :=
  if fbrServiceModuleNames.contains "CompanySpecificFBRSubmissionService" then
    .ok { db_manager := db_manager, company_id := company_id }
  else
    .error (.nameError "CompanySpecificFBRSubmissionService")

/-- Concrete line item used as a test fixture: all hard-error fields are
well-formed, `tax_rate = 18`, `tax_amount = 180`, stored `discount = -50`. -/
def fixtureItem : SalesInvoiceItem :=
  { item_name := "Widget"
    item_description := ""
    hs_code := "9999.0000"
    uom := "PCS"
    quantity := 2
    unit_price := 500
    total_value := 1180
    tax_rate := some 18
    tax_amount := some 180
    extra_tax := 0
    further_tax := 0
    sales_tax_withheld_at_source := 0
    fixed_notified_value := 0
    sro_schedule_no := ""
    fed_payable := 0
    discount := -50
    sale_type := "Goods at standard rate (default)"
    sro_item_serial_no := "" }

/-- Fixture item whose stored sales tax amount is 0 while `tax_rate = 18`
and `valueSalesExcludingST` comes out as 1000. -/
def zeroTaxItem : SalesInvoiceItem :=
  { fixtureItem with total_value := 1000, tax_amount := some 0 }

/-- Fixture item whose stored sales tax amount is NULL. -/
def noTaxAmountItem : SalesInvoiceItem := { fixtureItem with tax_amount := none }

/-- Fixture item whose per-item tax rate is NULL. -/
def noTaxRateItem : SalesInvoiceItem := { fixtureItem with tax_rate := none }

/-- Concrete invoice fixture passing every hard-error check of the
validator. -/
def fixtureInvoice : Invoice :=
  { id := 7
    company_id := "1234567890123"
    invoice_type := "Sale Invoice"
    posting_date := 0
    buyer_ntn_cnic := "9876543210987"
    buyer_name := "Buyer Ltd"
    buyer_address := "Karachi"
    buyer_province := "Sindh"
    buyer_type := "Registered"
    sale_origination_province := "Sindh"
    fbr_invoice_number := ""
    fbr_status := ""
    fbr_response := ""
    fbr_datetime := none
    status := "Draft"
    updated_at := 0 }

/-- Invoice fixture failing a hard-error check (missing buyer name). -/
def invalidInvoice : Invoice := { fixtureInvoice with buyer_name := "" }

/-- Concrete company fixture. -/
def fixtureCompany : Company :=
  { ntn_cnic := "1234567890123"
    name := "Fixture Co"
    address := "Main Street"
    province := "Sindh" }

/-- Concrete settings fixture with a configured endpoint. -/
def fixtureSettings : FBRSettings :=
  { company_id := "1234567890123"
    api_endpoint := "https://gw.fbr.gov.pk/di_data/v1/di/postinvoicedata_sb"
    validation_endpoint := ""
    pral_authorization_token := "token"
    timeout_seconds := some 30
    sandbox_scenario_id := "SN001" }

/-- Gateway response fixture accepted as "Valid". -/
def validResponse : Response :=
  { invoiceNumber := some "FBR7-1"
    dated := some "2025-01-01T10:00:00Z"
    validationResponse :=
      some { statusCode := some "00", status := some "Valid", error := some "" } }

/-- Gateway response fixture for a business rejection: HTTP 200 with an
embedded non-"Valid" status. -/
def rejectedResponse : Response :=
  { invoiceNumber := some ""
    dated := some "2025-01-01T10:00:00Z"
    validationResponse :=
      some { statusCode := some "01", status := some "Invalid"
             error := some "Buyer not registered" } }

/-- Submission oracle fixture that always fails. -/
def failingSubmit : Nat → SubmitResult := fun _ =>
  { success := false, error := some "boom", errors := [], warnings := []
    response := none }

/-- Submission oracle fixture that always succeeds. -/
def succeedingSubmit : Nat → SubmitResult := fun _ =>
  { success := true, error := none, errors := [], warnings := []
    response := some validResponse }

/-- Queue row fixture: pending, one prior retry, defaults elsewhere. -/
def fixtureQueueRow : QueueRow :=
  { id := 1, company_id := "1234567890123", document_type := "Sales Invoice"
    document_id := 42, status := QStatus.pending, priority := 5
    retry_count := 1, max_retries := 5, error_message := none
    created_at := 0, last_retry_at := none, completed_at := none
    next_retry_at := none }

/-- Queue state fixture holding the single pending fixture row. -/
def fixtureQueueState : QueueState := { rows := [fixtureQueueRow], nextId := 2 }

/-- Boolean success test on an `Except`, used to state hypotheses about the
payload builder without naming the built payload. -/
def exceptIsOk : Except ε α → Bool
  | .ok _ => true
  | .error _ => false

section Helpers

variable {α : Type}

/-- Counting is unchanged by an in-place update whose function preserves the
counted predicate. -/
theorem countP_updateFirst (p q : α → Bool) (f : α → α)
    (h : ∀ x, p (f x) = p x) (l : List α) :
    (updateFirst q f l).countP p = l.countP p := by
  induction l with
  | nil => rfl
  | cons x xs ih =>
    by_cases hq : q x
    · simp [updateFirst, hq, List.countP_cons, h x]
    · simp [updateFirst, hq, List.countP_cons, ih]

/-- An in-place update preserves the length. -/
theorem length_updateFirst (q : α → Bool) (f : α → α) (l : List α) :
    (updateFirst q f l).length = l.length := by
  induction l with
  | nil => rfl
  | cons x xs ih =>
    by_cases hq : q x
    · simp [updateFirst, hq]
    · simp [updateFirst, hq, ih]

/-- Finding after an in-place update whose function preserves the search
predicate returns the image of the original find. -/
theorem find?_updateFirst (q : α → Bool) (f : α → α)
    (h : ∀ x, q (f x) = q x) (l : List α) :
    (updateFirst q f l).find? q = (l.find? q).map f := by
  induction l with
  | nil => rfl
  | cons x xs ih =>
    by_cases hq : q x
    · rw [updateFirst, if_pos hq, List.find?_cons_of_pos _ ((h x).trans hq),
        List.find?_cons_of_pos _ hq]
      rfl
    · rw [updateFirst, if_neg hq, List.find?_cons_of_neg _ hq,
        List.find?_cons_of_neg _ hq, ih]

/-- Every element after an in-place update is an original element or the
image of one. -/
theorem mem_updateFirst (q : α → Bool) (f : α → α) (l : List α) :
    ∀ y ∈ updateFirst q f l, y ∈ l ∨ ∃ x, x ∈ l ∧ y = f x := by
  induction l with
  | nil => intro y hy; cases hy
  | cons x xs ih =>
    intro y hy
    rw [updateFirst] at hy
    by_cases hq : q x
    · rw [if_pos hq] at hy
      rcases List.mem_cons.mp hy with h1 | h1
      · exact Or.inr ⟨x, List.mem_cons_self x xs, h1⟩
      · exact Or.inl (List.mem_cons_of_mem x h1)
    · rw [if_neg hq] at hy
      rcases List.mem_cons.mp hy with h1 | h1
      · exact Or.inl (h1 ▸ List.mem_cons_self x xs)
      · rcases ih y h1 with h2 | ⟨x', hx', h2⟩
        · exact Or.inl (List.mem_cons_of_mem x h2)
        · exact Or.inr ⟨x', List.mem_cons_of_mem x hx', h2⟩

/-- Counting after a pointwise map that only ever turns counted elements
into counted elements is not larger. -/
theorem countP_map_le (p : α → Bool) (g : α → α) (l : List α)
    (h : ∀ x ∈ l, p (g x) = true → p x = true) :
    (l.map g).countP p ≤ l.countP p := by
  induction l with
  | nil => simp
  | cons x xs ih =>
    have hx := h x (List.mem_cons_self x xs)
    have hxs : ∀ a ∈ xs, p (g a) = true → p a = true := fun a ha =>
      h a (List.mem_cons_of_mem x ha)
    have hone : (if p (g x) then 1 else 0) ≤ (if p x then 1 else 0) := by
      by_cases hpg : p (g x) = true
      · simp [hpg, hx hpg]
      · simp [hpg]
    simp only [List.map_cons, List.countP_cons]
    exact Nat.add_le_add (ih hxs) hone

/-- Membership in a sorted insertion. -/
theorem mem_insertSorted (le : α → α → Bool) (x y : α) (l : List α) :
    y ∈ insertSorted le x l ↔ y = x ∨ y ∈ l := by
  induction l with
  | nil => simp [insertSorted]
  | cons z zs ih =>
    by_cases hle : le x z
    · simp [insertSorted, hle]
    · simp only [insertSorted, if_neg hle, List.mem_cons, ih]
      tauto

/-- The insertion sort is a permutation as far as membership goes. -/
theorem mem_sortByOrder (le : α → α → Bool) (y : α) (l : List α) :
    y ∈ sortByOrder le l ↔ y ∈ l := by
  induction l with
  | nil => simp [sortByOrder]
  | cons x xs ih =>
    rw [sortByOrder, mem_insertSorted, List.mem_cons, ih]

end Helpers

/-- A row selected by `process_queue`'s candidate query belongs to this
company, is pending and has retries left. -/
theorem selectPending_spec {company_id : String} {limit : Nat}
    {s : QueueState} {r : QueueRow} (h : r ∈ selectPending company_id limit s) :
    r.company_id = company_id ∧ r.status = QStatus.pending ∧
    r.retry_count < r.max_retries := by
  have h1 : r ∈ sortByOrder queueOrder (s.rows.filter (processCandidate company_id)) :=
    List.take_subset _ _ h
  have h2 : r ∈ s.rows.filter (processCandidate company_id) :=
    (mem_sortByOrder _ _ _).mp h1
  have h3 := (List.mem_filter.mp h2).2
  simp only [processCandidate, Bool.and_eq_true, decide_eq_true_eq] at h3
  exact ⟨h3.1.1, h3.1.2, h3.2⟩

/-- `processItem` never changes the key columns of the row. -/
theorem processItem_key (submit : Nat → SubmitResult) (now : Nat) (r : QueueRow) :
    (processItem submit now r).company_id = r.company_id ∧
    (processItem submit now r).document_type = r.document_type ∧
    (processItem submit now r).document_id = r.document_id := by
  simp only [processItem]
  split
  · exact ⟨rfl, rfl, rfl⟩
  · split <;> exact ⟨rfl, rfl, rfl⟩

/-- The key predicate is invariant under `processItem`. -/
theorem queueKeyMatch_processItem (cid dt : String) (did : Nat)
    (submit : Nat → SubmitResult) (now : Nat) (r : QueueRow) :
    queueKeyMatch cid dt did (processItem submit now r) =
      queueKeyMatch cid dt did r := by
  obtain ⟨h1, h2, h3⟩ := processItem_key submit now r
  unfold queueKeyMatch
  rw [h1, h2, h3]

/-- A processed row never ends an iteration in `Processing`. -/
theorem processItem_not_processing (submit : Nat → SubmitResult) (now : Nat)
    (r : QueueRow) : (processItem submit now r).status ≠ QStatus.processing := by
  simp only [processItem]
  split
  · intro h; exact QStatus.noConfusion h
  · split <;> (intro h; exact QStatus.noConfusion h)

/-- A row matched by the active-key predicate in an invariant state is in
fact pending. -/
theorem active_in_inv_is_pending {s : QueueState}
    {a : QueueRow} (hproc : ∀ r ∈ s.rows, r.status ≠ QStatus.processing)
    (ha : a ∈ s.rows) (hact : isActive a = true) :
    a.status = QStatus.pending := by
  unfold isActive at hact
  rw [Bool.or_eq_true] at hact
  rcases hact with hp | hp
  · exact of_decide_eq_true hp
  · exact absurd (of_decide_eq_true hp) (hproc a ha)

/-- `add_to_queue` preserves the queue invariant. -/
theorem add_to_queue_inv (cid dt : String) (did prio now : Nat)
    (s : QueueState) (h : QueueInv s) :
    QueueInv (add_to_queue cid dt did prio now s) := by
  obtain ⟨hcount, hproc⟩ := h
  by_cases hany : s.rows.any (pendingMatch cid dt did) = true
  · constructor
    · intro cid' dt' did'
      unfold activeCount add_to_queue
      rw [if_pos hany]
      dsimp only
      rw [countP_updateFirst (fun r => queueKeyMatch cid' dt' did' r && isActive r)
        (pendingMatch cid dt did) (bumpQueueRow prio now) (fun x => rfl)]
      exact hcount cid' dt' did'
    · intro r hr
      unfold add_to_queue at hr
      rw [if_pos hany] at hr
      dsimp only at hr
      rcases mem_updateFirst _ _ _ r hr with h1 | ⟨x, hx, rfl⟩
      · exact hproc r h1
      · exact hproc x hx
  · constructor
    · intro cid' dt' did'
      unfold activeCount add_to_queue
      rw [if_neg hany]
      dsimp only
      rw [List.countP_append]
      by_cases hkey : cid' = cid ∧ dt' = dt ∧ did' = did
      · obtain ⟨rfl, rfl, rfl⟩ := hkey
        have hzero : s.rows.countP
            (fun r => queueKeyMatch cid' dt' did' r && isActive r) = 0 := by
          rw [List.countP_eq_zero]
          intro a ha hpa
          rw [Bool.and_eq_true] at hpa
          obtain ⟨hkm, hact⟩ := hpa
          have hpend := active_in_inv_is_pending hproc ha hact
          have hpm : pendingMatch cid' dt' did' a = true := by
            unfold pendingMatch
            rw [hkm, hpend]
            simp
          exact hany (List.any_eq_true.mpr ⟨a, ha, hpm⟩)
        rw [hzero, Nat.zero_add]
        exact le_trans (List.countP_le_length _) (by simp)
      · have hnew : ∀ x ∈ [newQueueRow cid dt did prio now s.nextId],
            ¬ (queueKeyMatch cid' dt' did' x && isActive x) = true := by
          intro x hx
          rcases List.mem_singleton.mp hx with rfl
          intro hxx
          rw [Bool.and_eq_true] at hxx
          have hkm := hxx.1
          unfold queueKeyMatch newQueueRow at hkm
          simp only [Bool.and_eq_true, decide_eq_true_eq] at hkm
          exact hkey ⟨hkm.1.1.symm, hkm.1.2.symm, hkm.2.symm⟩
        rw [List.countP_eq_zero.mpr hnew, Nat.add_zero]
        exact hcount cid' dt' did'
    · intro r hr
      unfold add_to_queue at hr
      rw [if_neg hany] at hr
      dsimp only at hr
      rcases List.mem_append.mp hr with h1 | h1
      · exact hproc r h1
      · rcases List.mem_singleton.mp h1 with rfl
        intro hcontra
        exact QStatus.noConfusion hcontra

/-- `process_queue` preserves the queue invariant. -/
theorem process_queue_inv (cid : String) (submit : Nat → SubmitResult)
    (limit now : Nat) (s : QueueState) (h : QueueInv s) :
    QueueInv (process_queue cid submit limit now s).1 := by
  obtain ⟨hcount, hproc⟩ := h
  constructor
  · intro cid' dt' did'
    unfold activeCount process_queue
    dsimp only
    refine le_trans (countP_map_le _ _ _ ?_) (hcount cid' dt' did')
    intro x hx hpg
    by_cases hsel : x ∈ selectPending cid limit s
    · rw [if_pos hsel, queueKeyMatch_processItem] at hpg
      rw [Bool.and_eq_true] at hpg
      have hpend := (selectPending_spec hsel).2.1
      rw [Bool.and_eq_true]
      refine ⟨hpg.1, ?_⟩
      unfold isActive
      rw [hpend]
      simp
    · rwa [if_neg hsel] at hpg
  · intro r hr
    unfold process_queue at hr
    dsimp only at hr
    rcases List.mem_map.mp hr with ⟨x, hx, rfl⟩
    by_cases hsel : x ∈ selectPending cid limit s
    · rw [if_pos hsel]
      exact processItem_not_processing submit now x
    · rw [if_neg hsel]
      exact hproc x hx

/-- The empty queue satisfies the invariant. -/
theorem queueInv_empty : QueueInv emptyQueue := by
  constructor
  · intro cid dt did
    simp [activeCount, emptyQueue]
  · intro r hr
    cases hr

/-- Every queue-manager call preserves the invariant. -/
theorem applyQueueOp_inv (op : QueueOp) (s : QueueState) (h : QueueInv s) :
    QueueInv (applyQueueOp op s) := by
  cases op with
  | add cid dt did prio now => exact add_to_queue_inv cid dt did prio now s h
  | process cid submit limit now => exact process_queue_inv cid submit limit now s h

/-- Every sequential history of queue-manager calls from the empty table
ends in a state satisfying the invariant. -/
theorem runQueueOps_inv (ops : List QueueOp) : QueueInv (runQueueOps ops) := by
  unfold runQueueOps
  suffices h : ∀ s, QueueInv s →
      QueueInv (ops.foldl (fun s op => applyQueueOp op s) s) from
    h emptyQueue queueInv_empty
  induction ops with
  | nil => intro s hs; exact hs
  | cons op ops ih =>
    intro s hs
    exact ih (applyQueueOp op s) (applyQueueOp_inv op s hs)

/-- C1: over every sequential history of `add_to_queue` / `process_queue`
calls from the empty queue, at most one active (Pending/Processing) row
exists per `(company_id, document_type, document_id)` key; two consecutive
`add_to_queue` calls leave exactly one pending row with `retry_count = 1`;
and an `add_to_queue` call finding an active row for its key bumps that
row's `retry_count`, `last_retry_at` and priority in place instead of
inserting a second row. -/
theorem claim1_at_most_one_active_queue_item :
    (∀ ops cid dt did, activeCount (runQueueOps ops) cid dt did ≤ 1) ∧
    ((add_to_queue "1234567890123" "Sales Invoice" 42 5 1
        (add_to_queue "1234567890123" "Sales Invoice" 42 5 0 emptyQueue)).rows.map
      (fun r => (r.document_id, r.status, r.retry_count)) =
      [(42, QStatus.pending, 1)]) ∧
    (∀ ops cid dt did prio now,
      (∃ r ∈ (runQueueOps ops).rows,
        queueKeyMatch cid dt did r = true ∧ isActive r = true) →
      (add_to_queue cid dt did prio now (runQueueOps ops)).rows.length =
        (runQueueOps ops).rows.length ∧
      ∃ r0, (runQueueOps ops).rows.find? (pendingMatch cid dt did) = some r0 ∧
        (add_to_queue cid dt did prio now (runQueueOps ops)).rows.find?
            (pendingMatch cid dt did) = some (bumpQueueRow prio now r0)) := by
  refine ⟨fun ops cid dt did => (runQueueOps_inv ops).1 cid dt did, by decide, ?_⟩
  intro ops cid dt did prio now ⟨r, hr, hkm, hact⟩
  obtain ⟨-, hproc⟩ := runQueueOps_inv ops
  have hpend : r.status = QStatus.pending :=
    active_in_inv_is_pending hproc hr hact
  have hpm : pendingMatch cid dt did r = true := by
    unfold pendingMatch
    rw [hkm, hpend]
    simp
  have hany : (runQueueOps ops).rows.any (pendingMatch cid dt did) = true :=
    List.any_eq_true.mpr ⟨r, hr, hpm⟩
  have hsome : ((runQueueOps ops).rows.find? (pendingMatch cid dt did)).isSome := by
    rw [List.find?_isSome]
    exact ⟨r, hr, hpm⟩
  obtain ⟨r0, hr0⟩ := Option.isSome_iff_exists.mp hsome
  constructor
  · unfold add_to_queue
    rw [if_pos hany]
    dsimp only
    exact length_updateFirst _ _ _
  · refine ⟨r0, hr0, ?_⟩
    unfold add_to_queue
    rw [if_pos hany]
    dsimp only
    rw [find?_updateFirst (pendingMatch cid dt did) (bumpQueueRow prio now)
      (fun x => rfl), hr0]
    rfl

/-- C1 witness: the in-place-bump clause applied to a concrete one-call
history holding an active row for the key. -/
theorem claim1_witness :
    (add_to_queue "C" "Sales Invoice" 7 4 3
        (runQueueOps [QueueOp.add "C" "Sales Invoice" 7 5 0])).rows.length =
      (runQueueOps [QueueOp.add "C" "Sales Invoice" 7 5 0]).rows.length :=
  (claim1_at_most_one_active_queue_item.2.2
    [QueueOp.add "C" "Sales Invoice" 7 5 0] "C" "Sales Invoice" 7 4 3
    (by decide)).1

/-- C2: constructing `FBRQueueManager` always raises `NameError` on the
undefined global `CompanySpecificFBRSubmissionService`, so no instance (and
hence no method call through an instance) is ever obtained. -/
theorem claim2_queue_manager_init_raises_name_error :
    ∀ db_manager company_id,
      FBRQueueManagerInit db_manager company_id =
        .error (.nameError "CompanySpecificFBRSubmissionService") ∧
      ∀ m, FBRQueueManagerInit db_manager company_id ≠ .ok m := by
  intro db_manager company_id
  have h1 : FBRQueueManagerInit db_manager company_id =
      .error (.nameError "CompanySpecificFBRSubmissionService") := rfl
  refine ⟨h1, ?_⟩
  intro m hm
  rw [h1] at hm
  exact Except.noConfusion hm

/-- C2 witness: the theorem applied to a concrete database manager and
company. -/
theorem claim2_witness :
    FBRQueueManagerInit "db" "1234567890123" =
      .error (.nameError "CompanySpecificFBRSubmissionService") :=
  (claim2_queue_manager_init_raises_name_error "db" "1234567890123").1

/-- C4 counterexample: for a stored discount of -50 the built payload
carries discount -50, not the absolute value 50, and the built discount is
negative. -/
theorem claim4_counterexample :
    (buildItemEntry fixtureItem).map ItemEntry.discount = .ok (-50) ∧
    ¬ (buildItemEntry fixtureItem).map ItemEntry.discount = .ok 50 ∧
    (buildItemEntry fixtureItem).map (fun e => decide (e.discount < 0)) =
      .ok true := by
  refine ⟨rfl, ?_, rfl⟩
  intro h
  have h2 : (Except.ok (-50 : Rat) : Except PyExc Rat) = Except.ok 50 := h
  exact absurd (Except.ok.inj h2) (by decide)

/-- C4 amended: the payload builder copies the stored discount into the
payload verbatim, preserving its sign; no absolute value is taken. -/
theorem claim4_discount_copied_verbatim
    (item : SalesInvoiceItem) (ta : Rat) (h : item.tax_amount = some ta) :
    (buildItemEntry item).map ItemEntry.discount = .ok item.discount := by
  simp [buildItemEntry, h, Except.map]

/-- C4 witness: the amended theorem applied to the concrete fixture item. -/
theorem claim4_witness :
    (buildItemEntry zeroTaxItem).map ItemEntry.discount = .ok zeroTaxItem.discount :=
  claim4_discount_copied_verbatim zeroTaxItem 0 (by decide)

/-- C5 counterexample: for a line item with `tax_rate = 18` and
`valueSalesExcludingST = 1000` whose stored tax amount is 0, the built
payload's `salesTaxApplicable` is 0, not `round(18 * 1000 / 100, 2) = 180`;
and when the stored tax amount is NULL the builder raises a `TypeError`
instead of deriving the tax. -/
theorem claim5_counterexample :
    (buildItemEntry zeroTaxItem).map ItemEntry.valueSalesExcludingST = .ok 1000 ∧
    (buildItemEntry zeroTaxItem).map ItemEntry.salesTaxApplicable = .ok 0 ∧
    ¬ (buildItemEntry zeroTaxItem).map ItemEntry.salesTaxApplicable = .ok 180 ∧
    buildItemEntry noTaxAmountItem = .error (.typeError subNoneTypeErrorMsg) := by
  refine ⟨by norm_num [buildItemEntry, zeroTaxItem, fixtureItem, Except.map], rfl, ?_, rfl⟩
  intro h
  have h2 : (Except.ok (0 : Rat) : Except PyExc Rat) = Except.ok 180 := h
  exact absurd (Except.ok.inj h2) (by decide)

/-- C5 amended: the payload builder never derives the per-item sales tax
from the tax rate: `salesTaxApplicable` is the stored `tax_amount` verbatim
whenever one is stored, and payload building fails with a `TypeError` when
it is not. -/
theorem claim5_sales_tax_copied_verbatim (item : SalesInvoiceItem) :
    (∀ ta : Rat, item.tax_amount = some ta →
      (buildItemEntry item).map ItemEntry.salesTaxApplicable = .ok ta) ∧
    (item.tax_amount = none →
      buildItemEntry item = .error (.typeError subNoneTypeErrorMsg)) := by
  constructor
  · intro ta h
    simp [buildItemEntry, h, Except.map]
  · intro h
    simp [buildItemEntry, h]

/-- C5 witness: the amended theorem applied to the concrete fixture items. -/
theorem claim5_witness :
    (buildItemEntry fixtureItem).map ItemEntry.salesTaxApplicable = .ok 180 ∧
    buildItemEntry noTaxAmountItem = .error (.typeError subNoneTypeErrorMsg) :=
  ⟨(claim5_sales_tax_copied_verbatim fixtureItem).1 180 (by decide),
   (claim5_sales_tax_copied_verbatim noTaxAmountItem).2 (by decide)⟩

/-- C6: evaluation of the code at the failing input. For an invoice passing
every hard-error check whose single line item has a NULL tax rate,
`validate_invoice` returns `valid = false` with the caught `NameError`
(the loop appends to an undefined local `warnings`) recorded as an error and
no warning at all — the claim (and the code's own intent) expects
`valid = true` plus a warning. -/
theorem claim6_missing_tax_rate_blocks_submission :
    (validate_invoice 7 (some fixtureInvoice) (some fixtureCompany)
        [noTaxRateItem] 0).valid = false ∧
    (validate_invoice 7 (some fixtureInvoice) (some fixtureCompany)
        [noTaxRateItem] 0).errors =
      ["Validation error: " ++ (PyExc.nameError "warnings").message] ∧
    (validate_invoice 7 (some fixtureInvoice) (some fixtureCompany)
        [noTaxRateItem] 0).warnings = [] := by
  refine ⟨by decide, ?_, by decide⟩
  decide

/-- C8 counterexample: a timeout and a connection failure of the HTTP call
are both re-raised as the single generic `Exception` type — not as a
distinct `Timeout` / `HTTPError` / `NetworkError` / `DecodeError` kind. -/
theorem claim8_counterexample :
    submit_to_fbr_api fixtureSettings (.timeout "request timed out") =
      .error (.exception "FBR API request failed: request timed out") ∧
    submit_to_fbr_api fixtureSettings (.networkError "connection refused") =
      .error (.exception "FBR API request failed: connection refused") ∧
    (submit_to_fbr_api fixtureSettings (.timeout "request timed out")).mapError
      PyExc.typeName = .error "Exception" ∧
    ¬ "Exception" ∈ ["Timeout", "HTTPError", "NetworkError", "DecodeError"] := by
  refine ⟨rfl, rfl, rfl, by decide⟩

/-- C8 amended: every client-level failure of the HTTP submission call is
re-raised as one undifferentiated `Exception` whose message is
"FBR API request failed: " followed by the underlying error text — the four
failure kinds are not distinguished at this boundary — while an HTTP 200
response is returned parsed regardless of the business status embedded in
its body. -/
theorem claim8_generic_failure_no_classification
    (settings : FBRSettings) (outcome : HttpOutcome) :
    (∀ m, outcome.failureMsg = some m →
      submit_to_fbr_api settings outcome =
        .error (.exception ("FBR API request failed: " ++ m)) ∧
      (submit_to_fbr_api settings outcome).mapError PyExc.typeName =
        .error "Exception") ∧
    (∀ r, outcome = .ok r → submit_to_fbr_api settings outcome = .ok r) := by
  constructor
  · intro m hm
    cases outcome <;> simp_all [HttpOutcome.failureMsg, submit_to_fbr_api,
      Except.mapError, PyExc.typeName]
  · intro r hr
    subst hr
    rfl

/-- C8 witness: the amended theorem applied to a concrete timeout and to a
concrete parsed rejection response. -/
theorem claim8_witness :
    submit_to_fbr_api fixtureSettings (.timeout "t") =
      .error (.exception ("FBR API request failed: " ++ "t")) ∧
    submit_to_fbr_api fixtureSettings (.ok rejectedResponse) =
      .ok rejectedResponse :=
  ⟨((claim8_generic_failure_no_classification fixtureSettings
      (.timeout "t")).1 "t" rfl).1,
   (claim8_generic_failure_no_classification fixtureSettings
      (.ok rejectedResponse)).2 rejectedResponse rfl⟩

/-- C9: when a submission fails and the incremented retry count is still
below `max_retries`, the item goes back to `Pending` with `next_retry_at`
scheduled `min(300, 30 * 2 ^ retry_count)` seconds ahead; the delays for
retry counts 1, 2, 3, 4 are 60, 120, 240, 300 seconds, and the delay never
exceeds 300 seconds. -/
theorem claim9_exponential_backoff_capped :
    (∀ (submit : Nat → SubmitResult) (now : Nat) (r : QueueRow),
      (submit r.document_id).success = false →
      r.retry_count + 1 < r.max_retries →
      (processItem submit now r).status = QStatus.pending ∧
      (processItem submit now r).next_retry_at =
        some (now + retryDelay (r.retry_count + 1))) ∧
    retryDelay 1 = 60 ∧ retryDelay 2 = 120 ∧ retryDelay 3 = 240 ∧
    retryDelay 4 = 300 ∧ ∀ n, retryDelay n ≤ 300 := by
  refine ⟨?_, by decide, by decide, by decide, by decide, fun n => Nat.min_le_left _ _⟩
  intro submit now r hfail hbelow
  have hnotge : ¬ r.retry_count + 1 ≥ r.max_retries := by omega
  simp [processItem, hfail, hnotge]

/-- C9 witness: the backoff theorem applied to a concrete failing item. -/
theorem claim9_witness :
    (processItem failingSubmit 1000 fixtureQueueRow).status = QStatus.pending ∧
    (processItem failingSubmit 1000 fixtureQueueRow).next_retry_at =
      some (1000 + retryDelay 2) :=
  claim9_exponential_backoff_capped.1 failingSubmit 1000 fixtureQueueRow
    (by decide) (by decide)

/-- C3: on a structurally successful response the invoice receives the
response's invoice number, the FBR status taken from
`validationResponse.status`, the pretty-printed raw response, a status
advanced to "Submitted" exactly when the FBR status is "Valid", and an FBR
datetime parsed from the `dated` field with the current time as the
fallback when parsing fails. -/
theorem claim3_response_written_back_to_invoice
    (parseIso parseStrp : String → Option Nat) (now : Nat) (invoice : Invoice)
    (response : Response) (v : GatewayValidationResponse) (st : String)
    (hv : response.validationResponse = some v) (hst : v.status = some st) :
    ((update_invoice_with_response parseIso parseStrp now (some invoice)
        response).map Invoice.fbr_invoice_number =
      some (response.invoiceNumber.getD "")) ∧
    ((update_invoice_with_response parseIso parseStrp now (some invoice)
        response).map Invoice.fbr_status = some st) ∧
    ((update_invoice_with_response parseIso parseStrp now (some invoice)
        response).map Invoice.fbr_response = some (dumpResponse response)) ∧
    ((update_invoice_with_response parseIso parseStrp now (some invoice)
        response).map Invoice.status =
      some (if st = "Valid" then "Submitted" else "Failed")) ∧
    (∀ d t, response.dated = some d → d.toList.contains 'T' = true →
      parseIso (d.replace "Z" "+00:00") = some t →
      (update_invoice_with_response parseIso parseStrp now (some invoice)
        response).map Invoice.fbr_datetime = some (some t)) ∧
    (∀ d t, response.dated = some d → d ≠ "" → d.toList.contains 'T' = false →
      parseStrp d = some t →
      (update_invoice_with_response parseIso parseStrp now (some invoice)
        response).map Invoice.fbr_datetime = some (some t)) ∧
    (∀ d, response.dated = some d → d.toList.contains 'T' = true →
      parseIso (d.replace "Z" "+00:00") = none →
      (update_invoice_with_response parseIso parseStrp now (some invoice)
        response).map Invoice.fbr_datetime = some (some now)) := by
  have hcontains_ne : ∀ d : String, d.toList.contains 'T' = true → ¬ d = "" := by
    intro d hc hd
    subst hd
    exact absurd hc (by decide)
  refine ⟨?_, ?_, ?_, ?_, ?_, ?_, ?_⟩
  · simp [update_invoice_with_response, hv, hst]
  · simp [update_invoice_with_response, hv, hst]
  · simp [update_invoice_with_response, hv, hst]
  · simp [update_invoice_with_response, hv, hst]
  · intro d t hd hc hp
    have hc2 : 'T' ∈ d.data := by simpa using hc
    simp [update_invoice_with_response, hv, hst, parseFbrDated, hd,
      hcontains_ne d hc, hc2, hp]
  · intro d t hd hne hc hp
    have hc2 : ¬ 'T' ∈ d.data := by simpa using hc
    simp [update_invoice_with_response, hv, hst, parseFbrDated, hd, hne, hc2, hp]
  · intro d hd hc hp
    have hc2 : 'T' ∈ d.data := by simpa using hc
    simp [update_invoice_with_response, hv, hst, parseFbrDated, hd,
      hcontains_ne d hc, hc2, hp]

/-- C3 witness: the write-back theorem applied to the concrete rejected
response (business status "Invalid"). -/
theorem claim3_witness :
    ((update_invoice_with_response (fun _ => some 111) (fun _ => some 222) 9
        (some fixtureInvoice) rejectedResponse).map Invoice.fbr_status =
      some "Invalid") ∧
    ((update_invoice_with_response (fun _ => some 111) (fun _ => some 222) 9
        (some fixtureInvoice) rejectedResponse).map Invoice.status =
      some (if "Invalid" = "Valid" then "Submitted" else "Failed")) :=
  ⟨(claim3_response_written_back_to_invoice (fun _ => some 111)
      (fun _ => some 222) 9 fixtureInvoice rejectedResponse _ "Invalid"
      rfl rfl).2.1,
   (claim3_response_written_back_to_invoice (fun _ => some 111)
      (fun _ => some 222) 9 fixtureInvoice rejectedResponse _ "Invalid"
      rfl rfl).2.2.2.1⟩

/-- C7 counterexample: a call of `submit_invoice` that fails local
validation (missing buyer name) returns before any logging, appending zero
`SubmissionLog` rows instead of the claimed exactly one. -/
theorem claim7_counterexample :
    (submit_invoice 7 "1234567890123" (some invalidInvoice)
        (some fixtureCompany) [fixtureItem] (some fixtureSettings)
        (.ok validResponse) (fun _ => none) (fun _ => none) 0 0
        "sandbox").logs = [] ∧
    (submit_invoice 7 "1234567890123" (some invalidInvoice)
        (some fixtureCompany) [fixtureItem] (some fixtureSettings)
        (.ok validResponse) (fun _ => none) (fun _ => none) 0 0
        "sandbox").result.success = false ∧
    ¬ (submit_invoice 7 "1234567890123" (some invalidInvoice)
        (some fixtureCompany) [fixtureItem] (some fixtureSettings)
        (.ok validResponse) (fun _ => none) (fun _ => none) 0 0
        "sandbox").logs.length = 1 := by
  refine ⟨rfl, rfl, ?_⟩
  intro h
  have h2 : (0 : Nat) = 1 := h
  exact absurd h2 (by decide)

/-- C7 amended: `submit_invoice` appends exactly one `SubmissionLog` row on
the success path and on every exception path after validation — a failure
after the network call gets a row with status "Error" carrying the exception
text — but the local-validation-failure and missing-configuration paths
return early and append no row at all. -/
theorem claim7_one_log_row_after_validation (invoice_id : Nat)
    (company_id : String) (invoiceRow : Option Invoice)
    (companyRow : Option Company) (items : List SalesInvoiceItem)
    (settingsRow : Option FBRSettings) (httpOutcome : HttpOutcome)
    (parseIso parseStrp : String → Option Nat) (today : Int) (now : Nat)
    (mode : String) :
    ((validate_invoice invoice_id invoiceRow companyRow items today).valid =
        false →
      (submit_invoice invoice_id company_id invoiceRow companyRow items
        settingsRow httpOutcome parseIso parseStrp today now mode).logs = []) ∧
    (∀ p, (validate_invoice invoice_id invoiceRow companyRow items today).valid =
        true →
      build_sales_invoice_payload invoice_id company_id invoiceRow companyRow
        settingsRow items mode = .ok p →
      settingsRow = none →
      (submit_invoice invoice_id company_id invoiceRow companyRow items
        settingsRow httpOutcome parseIso parseStrp today now mode).logs = []) ∧
    (∀ p st, (validate_invoice invoice_id invoiceRow companyRow items
        today).valid = true →
      build_sales_invoice_payload invoice_id company_id invoiceRow companyRow
        settingsRow items mode = .ok p →
      settingsRow = some st → st.api_endpoint = "" →
      (submit_invoice invoice_id company_id invoiceRow companyRow items
        settingsRow httpOutcome parseIso parseStrp today now mode).logs = []) ∧
    (∀ e, (validate_invoice invoice_id invoiceRow companyRow items
        today).valid = true →
      build_sales_invoice_payload invoice_id company_id invoiceRow companyRow
        settingsRow items mode = .error e →
      (submit_invoice invoice_id company_id invoiceRow companyRow items
        settingsRow httpOutcome parseIso parseStrp today now
        mode).logs.length = 1) ∧
    (∀ p st, (validate_invoice invoice_id invoiceRow companyRow items
        today).valid = true →
      build_sales_invoice_payload invoice_id company_id invoiceRow companyRow
        settingsRow items mode = .ok p →
      settingsRow = some st → st.api_endpoint ≠ "" →
      (submit_invoice invoice_id company_id invoiceRow companyRow items
        settingsRow httpOutcome parseIso parseStrp today now
        mode).logs.length = 1) ∧
    (∀ p st m, (validate_invoice invoice_id invoiceRow companyRow items
        today).valid = true →
      build_sales_invoice_payload invoice_id company_id invoiceRow companyRow
        settingsRow items mode = .ok p →
      settingsRow = some st → st.api_endpoint ≠ "" →
      httpOutcome.failureMsg = some m →
      (submit_invoice invoice_id company_id invoiceRow companyRow items
        settingsRow httpOutcome parseIso parseStrp today now mode).logs.map
        FBRLogRow.status = ["Error"] ∧
      (submit_invoice invoice_id company_id invoiceRow companyRow items
        settingsRow httpOutcome parseIso parseStrp today now mode).logs.map
        FBRLogRow.validation_errors = ["FBR API request failed: " ++ m]) := by
  refine ⟨?_, ?_, ?_, ?_, ?_, ?_⟩
  · intro hval
    simp [submit_invoice, hval]
  · intro p hval hbuild hset
    subst hset
    simp [submit_invoice, hval, hbuild]
  · intro p st hval hbuild hset hep
    subst hset
    simp [submit_invoice, hval, hbuild, hep]
  · intro e hval hbuild
    simp [submit_invoice, hval, hbuild]
  · intro p st hval hbuild hset hep
    subst hset
    cases httpOutcome <;>
      simp [submit_invoice, hval, hbuild, hep, submit_to_fbr_api]
  · intro p st m hval hbuild hset hep hm
    subst hset
    cases httpOutcome with
    | ok r => exact absurd hm (by simp [HttpOutcome.failureMsg])
    | timeout msg =>
      have hmm : m = msg := by
        simpa [HttpOutcome.failureMsg] using hm.symm
      subst hmm
      constructor <;>
        simp [submit_invoice, hval, hbuild, hep, submit_to_fbr_api,
          log_submission, PyExc.message]
    | httpError code msg =>
      have hmm : m = msg := by
        simpa [HttpOutcome.failureMsg] using hm.symm
      subst hmm
      constructor <;>
        simp [submit_invoice, hval, hbuild, hep, submit_to_fbr_api,
          log_submission, PyExc.message]
    | networkError msg =>
      have hmm : m = msg := by
        simpa [HttpOutcome.failureMsg] using hm.symm
      subst hmm
      constructor <;>
        simp [submit_invoice, hval, hbuild, hep, submit_to_fbr_api,
          log_submission, PyExc.message]
    | decodeError msg =>
      have hmm : m = msg := by
        simpa [HttpOutcome.failureMsg] using hm.symm
      subst hmm
      constructor <;>
        simp [submit_invoice, hval, hbuild, hep, submit_to_fbr_api,
          log_submission, PyExc.message]

/-- C7 witness: the amended theorem applied to a concrete valid invoice with
a timed-out HTTP call: exactly one log row, with status "Error" and the
exception text. -/
theorem claim7_witness :
    (submit_invoice 7 "1234567890123" (some fixtureInvoice)
        (some fixtureCompany) [fixtureItem] (some fixtureSettings)
        (.timeout "request timed out") (fun _ => none) (fun _ => none) 0 0
        "sandbox").logs.length = 1 ∧
    (submit_invoice 7 "1234567890123" (some fixtureInvoice)
        (some fixtureCompany) [fixtureItem] (some fixtureSettings)
        (.timeout "request timed out") (fun _ => none) (fun _ => none) 0 0
        "sandbox").logs.map FBRLogRow.status = ["Error"] :=
  ⟨(claim7_one_log_row_after_validation 7 "1234567890123"
      (some fixtureInvoice) (some fixtureCompany) [fixtureItem]
      (some fixtureSettings) (.timeout "request timed out") (fun _ => none)
      (fun _ => none) 0 0 "sandbox").2.2.2.2.1 _ fixtureSettings (by decide)
      rfl rfl (by decide),
   ((claim7_one_log_row_after_validation 7 "1234567890123"
      (some fixtureInvoice) (some fixtureCompany) [fixtureItem]
      (some fixtureSettings) (.timeout "request timed out") (fun _ => none)
      (fun _ => none) 0 0 "sandbox").2.2.2.2.2 _ fixtureSettings
      "request timed out" (by decide) rfl rfl (by decide) rfl).1⟩

/-- C10: a business rejection (HTTP 200 whose body carries a non-"Valid"
status) still yields `success = true` from `submit_invoice` even though the
invoice itself is marked "Failed"; a queue item whose submission result has
`success = true` is marked `Completed` with its retry count untouched; and a
`Completed` row is never selected by `process_queue`'s candidate query, so
it is never retried. -/
theorem claim10_business_rejection_completes_queue_item :
    (∀ (invoice_id : Nat) (company_id : String) (invoice : Invoice)
      (companyRow : Option Company) (items : List SalesInvoiceItem)
      (settings : FBRSettings) (resp : Response)
      (v : GatewayValidationResponse) (st : String) (p : Payload)
      (parseIso parseStrp : String → Option Nat) (today : Int) (now : Nat)
      (mode : String),
      resp.validationResponse = some v → v.status = some st → st ≠ "Valid" →
      (validate_invoice invoice_id (some invoice) companyRow items
        today).valid = true →
      build_sales_invoice_payload invoice_id company_id (some invoice)
        companyRow (some settings) items mode = .ok p →
      settings.api_endpoint ≠ "" →
      (submit_invoice invoice_id company_id (some invoice) companyRow items
        (some settings) (.ok resp) parseIso parseStrp today now
        mode).result.success = true ∧
      (submit_invoice invoice_id company_id (some invoice) companyRow items
        (some settings) (.ok resp) parseIso parseStrp today now
        mode).invoice.map Invoice.status = some "Failed" ∧
      (submit_invoice invoice_id company_id (some invoice) companyRow items
        (some settings) (.ok resp) parseIso parseStrp today now
        mode).invoice.map Invoice.fbr_status = some st) ∧
    (∀ (submit : Nat → SubmitResult) (now : Nat) (r : QueueRow),
      (submit r.document_id).success = true →
      (processItem submit now r).status = QStatus.completed ∧
      (processItem submit now r).retry_count = r.retry_count ∧
      (processItem submit now r).completed_at = some now) ∧
    (∀ (company_id : String) (limit : Nat) (s : QueueState) (r : QueueRow),
      r.status = QStatus.completed → ¬ r ∈ selectPending company_id limit s) := by
  refine ⟨?_, ?_, ?_⟩
  · intro invoice_id company_id invoice companyRow items settings resp v st p
      parseIso parseStrp today now mode hv hst hne hval hbuild hep
    refine ⟨?_, ?_, ?_⟩
    · simp [submit_invoice, hval, hbuild, hep, submit_to_fbr_api]
    · simp [submit_invoice, hval, hbuild, hep, submit_to_fbr_api,
        update_invoice_with_response, hv, hst, hne]
    · simp [submit_invoice, hval, hbuild, hep, submit_to_fbr_api,
        update_invoice_with_response, hv, hst]
  · intro submit now r hs
    simp [processItem, hs]
  · intro company_id limit s r hc hmem
    have := (selectPending_spec hmem).2.1
    rw [hc] at this
    exact QStatus.noConfusion this

/-- C10 witness: the theorem applied to the concrete rejected response, a
concrete succeeding queue item, and a concrete completed row. -/
theorem claim10_witness :
    (submit_invoice 7 "1234567890123" (some fixtureInvoice)
        (some fixtureCompany) [fixtureItem] (some fixtureSettings)
        (.ok rejectedResponse) (fun _ => none) (fun _ => none) 0 9
        "sandbox").result.success = true ∧
    (submit_invoice 7 "1234567890123" (some fixtureInvoice)
        (some fixtureCompany) [fixtureItem] (some fixtureSettings)
        (.ok rejectedResponse) (fun _ => none) (fun _ => none) 0 9
        "sandbox").invoice.map Invoice.status = some "Failed" ∧
    (processItem succeedingSubmit 9 fixtureQueueRow).status =
      QStatus.completed ∧
    ¬ { fixtureQueueRow with status := QStatus.completed } ∈
      selectPending "1234567890123" 50 fixtureQueueState :=
  ⟨(claim10_business_rejection_completes_queue_item.1 7 "1234567890123"
      fixtureInvoice (some fixtureCompany) [fixtureItem] fixtureSettings
      rejectedResponse _ "Invalid" _ (fun _ => none) (fun _ => none) 0 9
      "sandbox" rfl rfl (by decide) (by decide) rfl (by decide)).1,
   (claim10_business_rejection_completes_queue_item.1 7 "1234567890123"
      fixtureInvoice (some fixtureCompany) [fixtureItem] fixtureSettings
      rejectedResponse _ "Invalid" _ (fun _ => none) (fun _ => none) 0 9
      "sandbox" rfl rfl (by decide) (by decide) rfl (by decide)).2.1,
   (claim10_business_rejection_completes_queue_item.2.1 succeedingSubmit 9
      fixtureQueueRow rfl).1,
   claim10_business_rejection_completes_queue_item.2.2 "1234567890123" 50
      fixtureQueueState { fixtureQueueRow with status := QStatus.completed }
      rfl⟩

end FBR
